import Mathlib

/-!
# Track-My-Money: aggregation and budget-evaluation module

Shallow embedding of the transaction aggregation and budget-evaluation
logic of the repository (the `stats` and `filteredTransactions` memos of
the app shell, the `stats`/`forecast`/`percent` computations of
`BudgetView.tsx`, and the `groupedTransactions` memo of
`TransactionList.tsx`), together with theorems settling the spec claims.

Modelling choices:
* amounts and derived statistics are rationals (`ℚ`), standing for the
  JavaScript numbers the code manipulates;
* a transaction's date is an integer timestamp in seconds; a calendar day
  is an integer index `d`, whose local midnight is `d * 86400` and whose
  last second (23:59:59) is `d * 86400 + 86399`.  The code's
  `setHours(0,0,0,0)` / `setHours(23,59,59,999)` become the start and the
  last second of the day (sub-second precision does not arise: the data
  model gives transactions a calendar date with no time component);
* `BudgetLimits`, a JavaScript object keyed by category, becomes an
  association list `List (String × ℚ)`; a missing key reads as `0`,
  matching the `limits[cat] || 0` idiom;
* `spentByCategory`, built by a `forEach` loop updating a record, becomes
  a left fold updating a finitely-supported function `String → ℚ`.
-/

inductive TxType where
  | income
  | expense
deriving DecidableEq, Repr

/-- A transaction record (identifier, amount, type, category, description,
date). -/
structure Transaction where
  id : String
  amount : ℚ
  type : TxType
  category : String
  description : String
  date : Int
deriving DecidableEq, Repr

/-- The derived statistics record produced by the dashboard `stats` memo. -/
structure StatsType where
  totalBalance : ℚ
  totalIncome : ℚ
  totalExpense : ℚ
  savingsRate : ℚ
deriving DecidableEq, Repr

/-- The reduction `transactions.filter(t => t.type === 'income').reduce((acc, curr) => acc + curr.amount, 0)` -/
def totalIncome (txs : List Transaction) : ℚ :=
  (txs.filter (fun t => t.type == TxType.income)).foldl (fun acc t => acc + t.amount) 0

/-- The reduction `transactions.filter(t => t.type === 'expense').reduce((acc, curr) => acc + curr.amount, 0)` -/
def totalExpense (txs : List Transaction) : ℚ :=
  (txs.filter (fun t => t.type == TxType.expense)).foldl (fun acc t => acc + t.amount) 0

/-- The `stats` memo: totals, balance and savings rate computed from the
(filtered) transactions and the profile's initial balance. -/
def stats (initialBalance : ℚ) (txs : List Transaction) : StatsType :=
  let ti := totalIncome txs
  let te := totalExpense txs
  let totalBalance := initialBalance + ti - te
  let savingsRate := if ti > 0 then ((ti - te) / ti) * 100 else 0
  { totalBalance := totalBalance, totalIncome := ti, totalExpense := te,
    savingsRate := savingsRate }

/-- A date range with optional calendar-day bounds (`dateRange.from`,
`dateRange.to`). -/
structure DateRange where
  fromDay : Option Int
  toDay : Option Int
deriving DecidableEq, Repr

/-- Local midnight of calendar day `d`, in seconds (`setHours(0,0,0,0)`). -/
def dayStart (d : Int) : Int := d * 86400

/-- Last second of calendar day `d` (`setHours(23,59,59,999)`). -/
def dayEnd (d : Int) : Int := d * 86400 + 86399

/-- The `filteredTransactions` memo: if either bound is absent the input
is returned unchanged, otherwise only transactions dated between the
start of `from` and the end of `to` are retained. -/
def filteredTransactions (rng : DateRange) (txs : List Transaction) :
    List Transaction :=
  match rng.fromDay, rng.toDay with
  | some f, some u =>
      txs.filter (fun t => decide (dayStart f ≤ t.date ∧ t.date ≤ dayEnd u))
  | _, _ => txs

/-- Budget limits: category label → monthly limit, as an association list. -/
abbrev BudgetLimits : Type := List (String × ℚ)

/-- The lookup `budgetLimits[cat] || 0`. -/
def limitOf (limits : BudgetLimits) (cat : String) : ℚ :=
  ((List.lookup cat limits).getD 0)

/-- The per-category spend map built by the `forEach` loop of the
`BudgetView` `stats` memo:
`spentByCategory[t.category] = (spentByCategory[t.category] || 0) + t.amount`
over the expense-type transactions. -/
def spentByCategory (txs : List Transaction) : String → ℚ :=
  (txs.filter (fun t => t.type == TxType.expense)).foldl
    (fun acc t => fun c => if c == t.category then acc c + t.amount else acc c)
    (fun _ => 0)

/-- The `totalSpent` accumulated by the same loop: the sum of all expense-type
amounts. -/
def totalSpent (txs : List Transaction) : ℚ :=
  (txs.filter (fun t => t.type == TxType.expense)).foldl
    (fun acc t => acc + t.amount) 0

/-- The reduction `Object.values(budgetLimits).reduce((a, b) => a + b, 0)`. -/
def totalBudgetOf (limits : BudgetLimits) : ℚ :=
  (limits.map (fun p => p.2)).foldl (fun a b => a + b) 0

/-- The record produced by the `forecast` memo of `BudgetView`. -/
structure Forecast where
  totalBudget : ℚ
  remainingBudget : ℚ
  status : String
  percentUsed : ℚ
deriving DecidableEq, Repr

/-- The `forecast` memo: total budget, remaining budget, percent used and
the overall status string. -/
def forecast (limits : BudgetLimits) (txs : List Transaction) : Forecast :=
  let totalBudget := totalBudgetOf limits
  let ts := totalSpent txs
  let remainingBudget := totalBudget - ts
  let percentUsed := if totalBudget > 0 then (ts / totalBudget) * 100 else 0
  { totalBudget := totalBudget, remainingBudget := remainingBudget,
    status :=
      if percentUsed > 100 then "danger"
      else if percentUsed > 85 then "warning"
      else "good",
    percentUsed := percentUsed }

/-- The per-category bar percentage of `BudgetView`:
`limit > 0 ? Math.min((spent / limit) * 100, 100) : spent > 0 ? 100 : 0`. -/
def categoryPercent (limits : BudgetLimits) (txs : List Transaction)
    (cat : String) : ℚ :=
  let spent := spentByCategory txs cat
  let lim := limitOf limits cat
  if lim > 0 then min ((spent / lim) * 100) 100
  else if spent > 0 then 100 else 0

/-- One display group of the `groupedTransactions` memo of
`TransactionList`. -/
structure DayGroup where
  date : Int
  transactions : List Transaction
  dailyExpense : ℚ
deriving DecidableEq, Repr

/-- The `groupedTransactions` memo: bucket the transactions by (string
equal) date key, sort the distinct dates descending, and emit per-day
groups with their expense subtotal. -/
def groupedTransactions (txs : List Transaction) : List DayGroup :=
  let dates := (txs.map (fun t => t.date)).dedup
  let sortedDates := dates.mergeSort (fun a b => decide (b ≤ a))
  sortedDates.map (fun d =>
    let g := txs.filter (fun t => t.date == d)
    { date := d, transactions := g,
      dailyExpense :=
        (g.filter (fun t => t.type == TxType.expense)).foldl
          (fun acc t => acc + t.amount) 0 })

/-- Total amount of a list of transactions (the quantity the grouping
claim says is preserved). -/
def sumAmounts (txs : List Transaction) : ℚ :=
  (txs.map (fun t => t.amount)).sum

/-! ## Basic characterizations -/

theorem foldl_add_amount (l : List Transaction) (a : ℚ) :
    l.foldl (fun acc t => acc + t.amount) a = a + sumAmounts l := by
  induction l generalizing a with
  | nil => simp [sumAmounts]
  | cons x xs ih =>
      simp only [List.foldl_cons, ih, sumAmounts, List.map_cons, List.sum_cons]
      ring

theorem totalIncome_eq (txs : List Transaction) :
    totalIncome txs = sumAmounts (txs.filter (fun t => t.type == TxType.income)) := by
  simpa using foldl_add_amount (txs.filter (fun t => t.type == TxType.income)) 0

theorem totalExpense_eq (txs : List Transaction) :
    totalExpense txs = sumAmounts (txs.filter (fun t => t.type == TxType.expense)) := by
  simpa using foldl_add_amount (txs.filter (fun t => t.type == TxType.expense)) 0

theorem totalSpent_eq (txs : List Transaction) :
    totalSpent txs = totalExpense txs := by
  rfl

/-- C1: income sum minus expense sum equals totalBalance minus the initial
balance. -/
theorem stats_balance_identity (initialBalance : ℚ) (txs : List Transaction) :
    totalIncome txs - totalExpense txs =
      (stats initialBalance txs).totalBalance - initialBalance := by
  simp only [stats]
  ring

/-! ## Concrete inputs used by witnesses and counterexamples -/

def txFood850 : Transaction :=
  { id := "t1", amount := 850, type := TxType.expense, category := "Food",
    description := "groceries", date := 0 }

def txFood1100 : Transaction :=
  { id := "t2", amount := 1100, type := TxType.expense, category := "Food",
    description := "groceries", date := 0 }

def txFood200 : Transaction :=
  { id := "t3", amount := 200, type := TxType.expense, category := "Food",
    description := "groceries", date := 0 }

def txSalaryIn : Transaction :=
  { id := "t4", amount := 10, type := TxType.income, category := "Salary",
    description := "pay", date := 172799 }

def txSalaryOut : Transaction :=
  { id := "t5", amount := 20, type := TxType.income, category := "Salary",
    description := "pay", date := 172800 }

def budgetFood1000 : BudgetLimits := [("Food", 1000)]

def budgetFood100 : BudgetLimits := [("Food", 100)]

/-! ## spentByCategory characterization -/

theorem spentByCategory_foldl (l : List Transaction) (acc : String → ℚ)
    (c : String) :
    (l.foldl
        (fun acc t => fun x => if x == t.category then acc x + t.amount else acc x)
        acc) c
      = acc c + sumAmounts (l.filter (fun t => t.category == c)) := by
  induction l generalizing acc with
  | nil => simp [sumAmounts]
  | cons x xs ih =>
      simp only [List.foldl_cons, ih, List.filter_cons]
      by_cases h : x.category = c
      · simp [h, sumAmounts]
        ring
      · have h' : ¬(c = x.category) := fun hc => h hc.symm
        simp [h, h', sumAmounts]

theorem spentByCategory_eq (txs : List Transaction) (c : String) :
    spentByCategory txs c =
      sumAmounts ((txs.filter (fun t => t.type == TxType.expense)).filter
        (fun t => t.category == c)) := by
  unfold spentByCategory
  rw [spentByCategory_foldl]
  simp

/-- C8 counterexample: with a nonzero initial balance, the stats on the
empty list have `totalBalance = initialBalance ≠ 0`. -/
theorem stats_empty_balance_ne_zero :
    (stats 5 []).totalBalance ≠ 0 := by
  norm_num [stats, totalIncome, totalExpense]

/-- C8 (amended): the aggregator is a total function, and on the empty
transaction list it yields totalIncome = 0, totalExpense = 0,
savingsRate = 0 and totalBalance = initialBalance. -/
theorem stats_empty (initialBalance : ℚ) :
    stats initialBalance [] =
      { totalBalance := initialBalance, totalIncome := 0, totalExpense := 0,
        savingsRate := 0 } := by
  norm_num [stats, totalIncome, totalExpense]

/-- C4 counterexample: with budget {"Food": 1000} and a single Food expense
of 850, the computed percent is exactly 85 but the overall status is NOT
"warning" (the code's threshold is strict: `percentUsed > 85`). -/
theorem forecast_food850_not_warning :
    (forecast budgetFood1000 [txFood850]).percentUsed = 85 ∧
      (forecast budgetFood1000 [txFood850]).status ≠ "warning" := by
  norm_num [forecast, totalBudgetOf, totalSpent, budgetFood1000, txFood850]
  decide

/-- C4 (amended): with budget {"Food": 1000} and a single Food expense of
850, the per-category percent and the overall percent used are exactly 85,
and the overall status is "good" (85 does not exceed the strict 85%
threshold). -/
theorem budget_food850_result :
    categoryPercent budgetFood1000 [txFood850] "Food" = 85 ∧
      (forecast budgetFood1000 [txFood850]).percentUsed = 85 ∧
      (forecast budgetFood1000 [txFood850]).status = "good" := by
  refine ⟨?_, ?_, ?_⟩
  · norm_num [categoryPercent, spentByCategory, limitOf, budgetFood1000,
      txFood850, List.lookup]
  · norm_num [forecast, totalBudgetOf, totalSpent, budgetFood1000, txFood850]
  · norm_num [forecast, totalBudgetOf, totalSpent, budgetFood1000, txFood850]

/-- C10: when the total of all category limits is zero, the forecast
reports percentUsed = 0 and status "good", whatever the transactions are. -/
theorem forecast_zero_budget (limits : BudgetLimits) (txs : List Transaction)
    (h : totalBudgetOf limits = 0) :
    (forecast limits txs).percentUsed = 0 ∧
      (forecast limits txs).status = "good" := by
  simp only [forecast, h]
  norm_num

/-- Witness for C10: the empty budget mapping with a large expense. -/
theorem forecast_zero_budget_witness :
    totalBudgetOf [] = 0 ∧ (forecast [] [txFood1100]).percentUsed = 0 ∧
      (forecast [] [txFood1100]).status = "good" := by
  have h : totalBudgetOf [] = 0 := by norm_num [totalBudgetOf]
  exact ⟨h, forecast_zero_budget [] [txFood1100] h⟩

/-- C5: when the total budget is positive, the overall status is "danger"
above 100% spend, "warning" above 85%, and "good" otherwise. -/
theorem forecast_status_spec (limits : BudgetLimits) (txs : List Transaction)
    (h : totalBudgetOf limits > 0) :
    (forecast limits txs).status =
      if totalSpent txs / totalBudgetOf limits * 100 > 100 then "danger"
      else if totalSpent txs / totalBudgetOf limits * 100 > 85 then "warning"
      else "good" := by
  simp only [forecast]
  rw [if_pos h]

/-- Witness for C5: budget {"Food": 1000} with spend 1100 is over 100%,
status "danger". -/
theorem forecast_status_spec_witness :
    totalBudgetOf budgetFood1000 > 0 ∧
      (forecast budgetFood1000 [txFood1100]).status = "danger" := by
  have h : totalBudgetOf budgetFood1000 > 0 := by
    norm_num [totalBudgetOf, budgetFood1000]
  refine ⟨h, ?_⟩
  rw [forecast_status_spec budgetFood1000 [txFood1100] h]
  norm_num [totalSpent, totalBudgetOf, budgetFood1000, txFood1100]

/-- C3 counterexample: with limit 100 and spend 200 the displayed percent
is 100, not spend/limit × 100 = 200: the code caps the percent at 100. -/
theorem categoryPercent_cap_counterexample :
    limitOf budgetFood100 "Food" > 0 ∧
      categoryPercent budgetFood100 [txFood200] "Food" ≠
        spentByCategory [txFood200] "Food" / limitOf budgetFood100 "Food" * 100 := by
  constructor
  · norm_num [limitOf, budgetFood100, List.lookup]
  · norm_num [categoryPercent, spentByCategory, limitOf, budgetFood100,
      txFood200, List.lookup]

/-- C3 (amended): for every category, with spend the sum of expense-type
amounts in that category, the percent is min(spend / limit × 100, 100)
when limit > 0 (capped at 100), 100 when limit = 0 and spend > 0, and 0
otherwise. -/
theorem categoryPercent_spec (limits : BudgetLimits) (txs : List Transaction)
    (cat : String) :
    categoryPercent limits txs cat =
      if limitOf limits cat > 0 then
        min (sumAmounts ((txs.filter (fun t => t.type == TxType.expense)).filter
              (fun t => t.category == cat)) / limitOf limits cat * 100) 100
      else if sumAmounts ((txs.filter (fun t => t.type == TxType.expense)).filter
              (fun t => t.category == cat)) > 0 then 100
      else 0 := by
  simp only [categoryPercent, spentByCategory_eq]

theorem spentByCategory_nonneg (txs : List Transaction) (cat : String)
    (h : ∀ t ∈ txs, 0 ≤ t.amount) : 0 ≤ spentByCategory txs cat := by
  rw [spentByCategory_eq]
  unfold sumAmounts
  apply List.sum_nonneg
  intro x hx
  obtain ⟨t, ht, rfl⟩ := List.mem_map.mp hx
  exact h t (List.mem_of_mem_filter (List.mem_of_mem_filter ht))

/-- C9: with non-negative transaction amounts, every per-category percent
lies in [0, 100]; in particular it is capped at 100 when spend exceeds a
positive limit. -/
theorem categoryPercent_bounds (limits : BudgetLimits) (txs : List Transaction)
    (cat : String) (h : ∀ t ∈ txs, 0 ≤ t.amount) :
    0 ≤ categoryPercent limits txs cat ∧ categoryPercent limits txs cat ≤ 100 := by
  have hs : 0 ≤ spentByCategory txs cat := spentByCategory_nonneg txs cat h
  simp only [categoryPercent]
  split_ifs with h1 h2
  · constructor
    · apply le_min
      · exact mul_nonneg (div_nonneg hs (le_of_lt h1)) (by norm_num)
      · norm_num
    · exact min_le_right _ _
  · norm_num
  · norm_num

/-- Witness for C9: the Food example with spend 850 and limit 1000. -/
theorem categoryPercent_bounds_witness :
    (∀ t ∈ [txFood850], 0 ≤ t.amount) ∧
      0 ≤ categoryPercent budgetFood1000 [txFood850] "Food" ∧
      categoryPercent budgetFood1000 [txFood850] "Food" ≤ 100 := by
  have h : ∀ t ∈ [txFood850], 0 ≤ t.amount := by
    intro t ht
    simp only [List.mem_singleton] at ht
    subst ht
    norm_num [txFood850]
  exact ⟨h, categoryPercent_bounds budgetFood1000 [txFood850] "Food" h⟩

/-- C2: with both bounds set, filtering retains exactly the transactions
dated within [from at 00:00:00, to at 23:59:59] (in seconds of local
calendar time); with either bound absent it returns the input unchanged. -/
theorem filteredTransactions_spec (rng : DateRange) (txs : List Transaction) :
    (∀ f u, rng.fromDay = some f → rng.toDay = some u →
        filteredTransactions rng txs =
          txs.filter (fun t =>
            decide (f * 86400 ≤ t.date ∧ t.date ≤ u * 86400 + 86399)))
    ∧ ((rng.fromDay = none ∨ rng.toDay = none) →
        filteredTransactions rng txs = txs) := by
  obtain ⟨rf, ru⟩ := rng
  constructor
  · intro f u hf hu
    cases hf
    cases hu
    rfl
  · rintro (h | h)
    · cases h
      rfl
    · cases h
      cases rf <;> rfl

/-- Witness for C2: range [day 0, day 1] keeps the transaction dated at
the last second of day 1 and drops the one dated at the first second of
day 2. -/
theorem filteredTransactions_spec_witness :
    DateRange.fromDay { fromDay := some 0, toDay := some 1 } = some 0 ∧
      filteredTransactions { fromDay := some 0, toDay := some 1 }
          [txSalaryIn, txSalaryOut] = [txSalaryIn] := by
  refine ⟨rfl, ?_⟩
  rw [(filteredTransactions_spec { fromDay := some 0, toDay := some 1 }
        [txSalaryIn, txSalaryOut]).1 0 1 rfl rfl]
  simp [txSalaryIn, txSalaryOut]

theorem sumAmounts_perm (l l' : List Transaction) (h : l.Perm l') :
    sumAmounts l = sumAmounts l' := by
  unfold sumAmounts
  exact (h.map (fun t => t.amount)).sum_eq

/-- C7: the aggregation is permutation-invariant — the stats record
(totals, balance, savings rate) and the per-category spend map agree on
any two permutations of the same transaction list. -/
theorem aggregation_perm_invariant (i : ℚ) (txs txs' : List Transaction)
    (h : txs.Perm txs') :
    stats i txs = stats i txs' ∧
      ∀ cat, spentByCategory txs cat = spentByCategory txs' cat := by
  have hI : totalIncome txs = totalIncome txs' := by
    rw [totalIncome_eq, totalIncome_eq]
    exact sumAmounts_perm _ _ (h.filter _)
  have hE : totalExpense txs = totalExpense txs' := by
    rw [totalExpense_eq, totalExpense_eq]
    exact sumAmounts_perm _ _ (h.filter _)
  constructor
  · simp [stats, hI, hE]
  · intro cat
    rw [spentByCategory_eq, spentByCategory_eq]
    exact sumAmounts_perm _ _ ((h.filter _).filter _)

/-- Witness for C7: swapping a two-element list leaves the stats and the
Food spend unchanged. -/
theorem aggregation_perm_invariant_witness :
    ([txSalaryIn, txFood850].Perm [txFood850, txSalaryIn]) ∧
      stats 0 [txSalaryIn, txFood850] = stats 0 [txFood850, txSalaryIn] ∧
      spentByCategory [txSalaryIn, txFood850] "Food" =
        spentByCategory [txFood850, txSalaryIn] "Food" := by
  have h : [txSalaryIn, txFood850].Perm [txFood850, txSalaryIn] :=
    List.Perm.swap txFood850 txSalaryIn []
  obtain ⟨h1, h2⟩ := aggregation_perm_invariant 0 _ _ h
  exact ⟨h, h1, h2 "Food"⟩

theorem sumAmounts_cons (x : Transaction) (l : List Transaction) :
    sumAmounts (x :: l) = x.amount + sumAmounts l := by
  simp [sumAmounts]

theorem sumAmounts_filter_split (p : Transaction → Bool)
    (txs : List Transaction) :
    sumAmounts (txs.filter p) + sumAmounts (txs.filter (fun t => !(p t)))
      = sumAmounts txs := by
  induction txs with
  | nil => simp [sumAmounts]
  | cons x xs ih =>
      by_cases h : p x
      · simp [List.filter_cons, h, sumAmounts_cons]
        rw [← ih]
        ring
      · have h' : p x = false := by simp [h]
        simp [List.filter_cons, h', sumAmounts_cons]
        rw [← ih]
        ring

theorem sum_over_dates (ds : List Int) :
    ds.Nodup → ∀ txs : List Transaction, (∀ t ∈ txs, t.date ∈ ds) →
      (ds.map (fun d => sumAmounts (txs.filter (fun t => t.date == d)))).sum
        = sumAmounts txs := by
  induction ds with
  | nil =>
      intro _ txs hall
      have hnil : txs = [] := by
        cases txs with
        | nil => rfl
        | cons x xs =>
            exact absurd (hall x (List.mem_cons_self x xs)) (List.not_mem_nil _)
      subst hnil
      simp [sumAmounts]
  | cons d ds ih =>
      intro hnd txs hall
      have hnd' : ds.Nodup := (List.nodup_cons.mp hnd).2
      have hdns : d ∉ ds := (List.nodup_cons.mp hnd).1
      have hall' : ∀ t ∈ txs.filter (fun t => !(t.date == d)), t.date ∈ ds := by
        intro t ht
        have hmem := List.mem_filter.mp ht
        have h2 : ¬(t.date = d) := by
          have hb := hmem.2
          simp at hb
          exact hb
        rcases List.mem_cons.mp (hall t hmem.1) with h3 | h3
        · exact absurd h3 h2
        · exact h3
      have hmapeq : ∀ d' ∈ ds,
          txs.filter (fun t => t.date == d') =
            (txs.filter (fun t => !(t.date == d))).filter
              (fun t => t.date == d') := by
        intro d' hd'
        have hdd : d' ≠ d := fun hq => hdns (hq ▸ hd')
        rw [List.filter_filter]
        apply List.filter_congr
        intro t _
        by_cases hc : t.date = d'
        · have hcd : ¬(t.date = d) := by rw [hc]; exact hdd
          simp [hc, hcd, hdd]
        · simp [hc]
      rw [List.map_cons, List.sum_cons]
      have hsum2 :
          (ds.map (fun d' => sumAmounts (txs.filter (fun t => t.date == d')))).sum
            = (ds.map (fun d' => sumAmounts
                ((txs.filter (fun t => !(t.date == d))).filter
                  (fun t => t.date == d')))).sum := by
        congr 1
        apply List.map_congr_left
        intro d' hd'
        rw [hmapeq d' hd']
      rw [hsum2, ih hnd' _ hall']
      exact sumAmounts_filter_split (fun t => t.date == d) txs

/-- C6: grouping the transactions by day partitions the input, so the sum
of amounts over all day-groups equals the sum over the ungrouped list. -/
theorem groupedTransactions_sum_preserved (txs : List Transaction) :
    ((groupedTransactions txs).map (fun g => sumAmounts g.transactions)).sum
      = sumAmounts txs := by
  simp only [groupedTransactions, List.map_map]
  have hcomp : ((fun g : DayGroup => sumAmounts g.transactions) ∘ fun d : Int =>
      ({ date := d, transactions := List.filter (fun t => t.date == d) txs,
         dailyExpense := List.foldl (fun acc t => acc + t.amount) 0
           (List.filter (fun t => t.type == TxType.expense)
             (List.filter (fun t => t.date == d) txs)) } : DayGroup)) =
      fun d : Int => sumAmounts (List.filter (fun t => t.date == d) txs) := rfl
  rw [hcomp]
  have hperm :
      ((txs.map (fun t => t.date)).dedup.mergeSort
          (fun a b => decide (b ≤ a))).Perm
        (txs.map (fun t => t.date)).dedup :=
    List.mergeSort_perm _ _
  rw [List.Perm.sum_eq
    (hperm.map (fun d => sumAmounts (txs.filter (fun t => t.date == d))))]
  exact sum_over_dates _ (List.nodup_dedup _) txs
    (fun t ht => List.mem_dedup.mpr (List.mem_map_of_mem _ ht))
